import Mathlib

/-!
# Verification of the timeflux_amti ForceDriver acquisition logic

Shallow embedding of `timeflux_amti/nodes/driver.py` (class `ForceDriver`).

The device (the AMTI vendor DLL) is modelled as a queue of read results: each
call to the read primitive `fmDLLGetTheFloatDataLBVStyle` pops the next entry,
which carries the returned sample count and the contents the read deposits in
the driver's 8x16 float staging buffer.  An exhausted queue models the DLL
returning 0 (no pending samples).  Sample values are embedded as integers:
every value the claims compute with (counter values below 2^24, their unit
differences, and the wrap constant 2^24 - 1) is an integer exactly
representable in the source's 32-bit floats, on which float arithmetic is
exact, so integer arithmetic agrees with the source wherever a claim looks.
(The force and moment channels, whose fractional values no claim computes
with, ride along as opaque entries of the rows.)

Timestamps are microseconds since the epoch, as integers.  The source builds
`(np.arange(n+1) * 1e6 / rate).astype('timedelta64[us]')`: the products
`k * 1e6` are exact in float64 for any batch size reachable here, the division
by the integer rate is correctly rounded, and the `astype` truncates toward
zero.  For every supported rate the exact quotient `k * 10^6 / rate` is either
an integer (then the float quotient is that integer) or at distance at least
`1/rate ≥ 1/2000` from the next integer (far above one ulp of float64 at these
magnitudes), so the truncated float equals the floor of the exact quotient.
The embedding therefore uses natural floor division `k * 1000000 / rate`.
-/

namespace TimefluxAmti

/-- One result of the DLL read primitive: the sample count it returned and the
contents it left in the driver's staging buffer (`self._buffer`, 8 * 16
C floats in `_init_device`). -/
structure Block where
  count : ℕ
  buf : List ℤ
deriving DecidableEq

/-- The per-session acquisition state held by `ForceDriver`:
`_rate`, `_start_timestamp`, `_reference_ts`, `_sample_count`,
`_diagnostics_dict` (modelled as the flag "a diagnostics payload is pending").
Timestamps are integers, in microseconds since the epoch. -/
structure DriverState where
  rate : ℕ
  startTimestamp : ℤ
  referenceTs : ℤ
  sampleCount : Option ℕ
  diagnosticsPending : Bool
deriving DecidableEq

/-- What one `update()` call hands to the output port `self.o`:
the row batch, the aligned timestamps, and whether the pending diagnostics
dictionary was attached as metadata. -/
structure BatchOutput where
  rows : List (List ℤ)
  timestamps : List ℤ
  metaSent : Bool
deriving DecidableEq

/-- Full effect of one `update()` call: the new driver state, the remaining
device queue, what was written to the sink (`none` when nothing was written),
the count of samples dropped by the first-call flush (`none` on later calls),
and how many discontinuity warnings were logged. -/
structure UpdateResult where
  state : DriverState
  device : List Block
  output : Option BatchOutput
  droppedOnFirstCall : Option ℕ
  warnCount : ℕ
deriving DecidableEq

/-- `np.array(self._buffer).reshape(-1, 8)`: split the flat float buffer into
consecutive rows of 8 channels.  (On the real 128-float buffer the length is
always divisible by 8; a shorter tail would make `np.reshape` fail, and is
kept as a final short row here only to make the function total.) -/
def reshapeRows : List ℤ → List (List ℤ)
  | c0 :: c1 :: c2 :: c3 :: c4 :: c5 :: c6 :: c7 :: rest =>
      [c0, c1, c2, c3, c4, c5, c6, c7] :: reshapeRows rest
  | [] => []
  | l => [l]

/-- The first-call flush loop (`update`, lines 170-175): read until the DLL
returns 0, summing the returned counts into `n_drop`; the drained contents are
discarded. Returns the total dropped count and the remaining device queue. -/
def flushLoop : List Block → ℕ × List Block
  | [] => (0, [])
  | b :: rest =>
    if b.count = 0 then (0, rest)
    else
      let r := flushLoop rest
      (b.count + r.1, r.2)

/-- The drain loop (`update`, lines 183-194): read until the DLL returns 0;
after each read reporting a nonzero count, reshape the whole staging buffer
into rows of 8 and append it to `data`.  Returns the list of appended row
arrays (in arrival order) and the remaining device queue. -/
def drainLoop : List Block → List (List (List ℤ)) × List Block
  | [] => ([], [])
  | b :: rest =>
    if b.count = 0 then ([], rest)
    else
      let r := drainLoop rest
      (reshapeRows b.buf :: r.1, r.2)

/-- Column 0 of the row batch: `data[:, 0]`, the device sample counter. -/
def col0 (rows : List (List ℤ)) : List ℤ := rows.map List.headI

/-- The documented counter wrap point, `2**24 - 1`. -/
def wrapPoint : ℤ := 2 ^ 24 - 1

/-- `data[idx, 0]` where `idx = np.where(np.diff(data[:, 0]) != 1)[0]`:
the counter values at the earlier row of every consecutive pair whose counter
difference is not 1. -/
def gapPrevValues (cs : List ℤ) : List ℤ :=
  ((cs.zip cs.tail).filter (fun p => decide (p.2 - p.1 ≠ 1))).map Prod.fst

/-- The discontinuity test (`update`, line 204):
`idx.size > 0 and np.any(data[idx, 0] != (2**24 - 1))`. -/
def overflowWarning (cs : List ℤ) : Bool :=
  decide (0 < (gapPrevValues cs).length) &&
    (gapPrevValues cs).any (fun c => decide (c ≠ wrapPoint))

/-- Microsecond offset of sample `k` at the given rate:
the truncation of `k * 1e6 / rate` (see the header comment for why natural
floor division embeds the source's float computation exactly). -/
def tsOffset (rate k : ℕ) : ℕ := k * 1000000 / rate

/-- `timestamps = self._start_timestamp + (np.arange(n_samples + 1) * 1e6 /
self._rate).astype('timedelta64[us]')`: the `n+1` reconstructed timestamps. -/
def timestampsArr (start : ℤ) (rate n : ℕ) : List ℤ :=
  (List.range (n + 1)).map (fun k => start + (tsOffset rate k : ℤ))

/-- Body of `update()` after the first-call flush (lines 183-237): drain the
device, and if any read appended data, stack it, test counter continuity,
advance the sample count and the timestamp anchor, and write the batch with
`timestamps[:-1]` to the sink, attaching the diagnostics dictionary once. -/
def processBatch (st : DriverState) (dev : List Block)
    (dropped : Option ℕ) : UpdateResult :=
  let dr := drainLoop dev
  if dr.1.isEmpty then
    ⟨st, dr.2, none, dropped, 0⟩
  else
    let data := dr.1.flatten
    let n := data.length
    let warn := overflowWarning (col0 data)
    let ts := timestampsArr st.startTimestamp st.rate n
    let st1 : DriverState :=
      { st with
        sampleCount := st.sampleCount.map (fun c => c + n)
        startTimestamp := ts.getLastD st.startTimestamp
        diagnosticsPending := false }
    ⟨st1, dr.2, some ⟨data, ts.dropLast, st.diagnosticsPending⟩,
      dropped, if warn then 1 else 0⟩

/-- `ForceDriver.update` (lines 164-237).  `wallClock` is the value of
`int(time.time() * 1e6)` observed on a first call.  When `_sample_count` is
still unset this is the first call: flush and discard everything pending, log
the dropped total, anchor `_start_timestamp` and `_reference_ts` at the wall
clock and zero the sample count, then proceed with the normal drain. -/
def update (wallClock : ℤ) (st : DriverState) (dev : List Block) :
    UpdateResult :=
  match st.sampleCount with
  | none =>
    let fl := flushLoop dev
    let st1 : DriverState :=
      { st with
        startTimestamp := wallClock
        referenceTs := wallClock
        sampleCount := some 0 }
    processBatch st1 fl.2 (some fl.1)
  | some _ => processBatch st dev none

/-- `ForceDriver.SAMPLING_RATES` (lines 119-123). -/
def SAMPLING_RATES : List ℕ :=
  [2000, 1800, 1500, 1200, 1000, 900, 800, 600, 500, 450, 400, 360, 300,
   250, 240, 225, 200, 180, 150, 125, 120, 100, 90, 80, 75, 60, 50, 45,
   40, 30, 25, 20, 15, 10]

/-- Observable outcome of `ForceDriver.__init__` (lines 126-147): whether the
`ValueError('Invalid sampling rate')` was raised, whether the high-rate
`UserWarning` was emitted, and whether control reached `self._init_device()`
(the first device interaction). -/
structure InitOutcome where
  raisedValueError : Bool
  warnedHighRate : Bool
  deviceInitAttempted : Bool
deriving DecidableEq

/-- `ForceDriver.__init__`: reject a rate outside `SAMPLING_RATES` before
anything else; warn (but proceed) for a supported rate above 1000 Hz; only
then fall through to `self._init_device()`. -/
def forceDriverInit (rate : ℕ) : InitOutcome :=
  if ¬ rate ∈ SAMPLING_RATES then ⟨true, false, false⟩
  else if 1000 < rate then ⟨false, true, true⟩
  else ⟨false, false, true⟩

/-- The prefix of the device queue the drain loop consumes as data: the reads
up to (excluding) the first one that returns count 0. -/
def pendingBlocks (dev : List Block) : List Block :=
  dev.takeWhile (fun b => decide (b.count ≠ 0))

/-- Specification-side description of one drained batch: the non-empty blocks
available at call time, in arrival order, each reshaped to rows of 8 columns,
concatenated. -/
def deliveredRows (dev : List Block) : List (List ℤ) :=
  ((pendingBlocks dev).map (fun b => reshapeRows b.buf)).flatten

/-! Concrete fixtures used to instantiate the theorems below.  All use the
default session rate of 500 Hz (sample period 2000 microseconds) and a
startTimestamp anchor of 1000000 microseconds. -/

/-- A mid-session driver state: 500 Hz, anchors at 1000000 us, sample count
established, diagnostics payload still pending. -/
def exReadyState : DriverState := ⟨500, 1000000, 1000000, some 0, true⟩

/-- A state as left by `__init__`: the sample count is still unset. -/
def exFreshState : DriverState := ⟨500, 0, 0, none, false⟩

/-- A staging buffer holding two samples with consecutive counters 100, 101. -/
def bufA : List ℤ := [100, 0, 0, 0, 0, 0, 0, 0, 101, 0, 0, 0, 0, 0, 0, 0]

/-- A staging buffer holding two samples with consecutive counters 102, 103. -/
def bufB : List ℤ := [102, 0, 0, 0, 0, 0, 0, 0, 103, 0, 0, 0, 0, 0, 0, 0]

/-- Counters `[16777214, 16777215, 0, 1]`: a step of 1, the documented wrap
at `2^24 - 1`, then a step of 1. -/
def bufWrap : List ℤ :=
  [16777214, 0, 0, 0, 0, 0, 0, 0, 16777215, 0, 0, 0, 0, 0, 0, 0,
   0, 0, 0, 0, 0, 0, 0, 0, 1, 0, 0, 0, 0, 0, 0, 0]

/-- Counters `[16777215, 7, 8]`: a non-unit jump out of the wrap value whose
successor is not 0. -/
def bufWrapSeven : List ℤ :=
  [16777215, 0, 0, 0, 0, 0, 0, 0, 7, 0, 0, 0, 0, 0, 0, 0,
   8, 0, 0, 0, 0, 0, 0, 0]

/-- Counters `[5, 6, 9, 10]`: a real gap (6 to 9) away from the wrap point. -/
def bufGap : List ℤ :=
  [5, 0, 0, 0, 0, 0, 0, 0, 6, 0, 0, 0, 0, 0, 0, 0,
   9, 0, 0, 0, 0, 0, 0, 0, 10, 0, 0, 0, 0, 0, 0, 0]

/-- A full 128-float staging buffer, as deposited by the real DLL. -/
def buf128 : List ℤ := (List.range 128).map (fun i => (100 + i : ℤ))

/-- Expected sink payload for draining `bufA` from `exReadyState`. -/
def exOutA : BatchOutput :=
  ⟨[[100, 0, 0, 0, 0, 0, 0, 0], [101, 0, 0, 0, 0, 0, 0, 0]],
   [1000000, 1002000], true⟩

/-- Expected sink payload for draining `bufB` right after `bufA`. -/
def exOutB : BatchOutput :=
  ⟨[[102, 0, 0, 0, 0, 0, 0, 0], [103, 0, 0, 0, 0, 0, 0, 0]],
   [1004000, 1006000], false⟩

/-- Expected sink payload for draining `bufWrap` from `exReadyState`. -/
def exOutWrap : BatchOutput :=
  ⟨[[16777214, 0, 0, 0, 0, 0, 0, 0], [16777215, 0, 0, 0, 0, 0, 0, 0],
    [0, 0, 0, 0, 0, 0, 0, 0], [1, 0, 0, 0, 0, 0, 0, 0]],
   [1000000, 1002000, 1004000, 1006000], true⟩

/-- Expected sink payload for draining `bufWrapSeven` from `exReadyState`. -/
def exOutWrapSeven : BatchOutput :=
  ⟨[[16777215, 0, 0, 0, 0, 0, 0, 0], [7, 0, 0, 0, 0, 0, 0, 0],
    [8, 0, 0, 0, 0, 0, 0, 0]],
   [1000000, 1002000, 1004000], true⟩

/-- Expected sink payload for draining `bufGap` from `exReadyState`. -/
def exOutGap : BatchOutput :=
  ⟨[[5, 0, 0, 0, 0, 0, 0, 0], [6, 0, 0, 0, 0, 0, 0, 0],
    [9, 0, 0, 0, 0, 0, 0, 0], [10, 0, 0, 0, 0, 0, 0, 0]],
   [1000000, 1002000, 1004000, 1006000], true⟩

/-- Expected sink payload for draining `buf128` from `exReadyState`. -/
def exOut128 : BatchOutput :=
  ⟨reshapeRows buf128, (timestampsArr 1000000 500 16).dropLast, true⟩

end TimefluxAmti

namespace TimefluxAmti

/-! ## Basic lemmas about the embedded operations -/

lemma tsOffset_zero (rate : ℕ) : tsOffset rate 0 = 0 := by
  simp [tsOffset]

lemma tsOffset_le (rate k : ℕ) : rate * tsOffset rate k ≤ k * 1000000 := by
  rw [tsOffset, Nat.mul_comm]
  exact Nat.div_mul_le_self _ _

lemma lt_tsOffset_add (rate k : ℕ) (hr : 0 < rate) :
    k * 1000000 < rate * tsOffset rate k + rate := by
  rw [tsOffset]
  conv_lhs => rw [← Nat.div_add_mod (k * 1000000) rate]
  exact Nat.add_lt_add_left (Nat.mod_lt _ hr) _

lemma tsOffset_succ_gap (rate m : ℕ) (hr : 0 < rate) :
    (((tsOffset rate (m + 1) : ℤ) - (tsOffset rate m : ℤ)) * (rate : ℤ)
      - 1000000).natAbs < rate := by
  have h1 := Nat.div_add_mod ((m + 1) * 1000000) rate
  have h2 := Nat.div_add_mod (m * 1000000) rate
  have h3 : ((m + 1) * 1000000) % rate < rate := Nat.mod_lt _ hr
  have h4 : (m * 1000000) % rate < rate := Nat.mod_lt _ hr
  unfold tsOffset
  set q1 := (m + 1) * 1000000 / rate with hq1
  set q2 := m * 1000000 / rate with hq2
  set s1 := (m + 1) * 1000000 % rate with hs1
  set s2 := m * 1000000 % rate with hs2
  have e1 : (rate : ℤ) * q1 + s1 = (m + 1) * 1000000 := by exact_mod_cast h1
  have e2 : (rate : ℤ) * q2 + s2 = m * 1000000 := by exact_mod_cast h2
  have key : ((q1 : ℤ) - q2) * rate - 1000000 = (s2 : ℤ) - s1 := by nlinarith [e1, e2]
  rw [key]
  omega

lemma timestampsArr_dropLast (s : ℤ) (r n : ℕ) :
    (timestampsArr s r n).dropLast =
      (List.range n).map (fun k => s + (tsOffset r k : ℤ)) := by
  rw [timestampsArr, List.range_succ, List.map_append]
  simp

lemma timestampsArr_getLastD (s : ℤ) (r n : ℕ) (d : ℤ) :
    (timestampsArr s r n).getLastD d = s + (tsOffset r n : ℤ) := by
  rw [timestampsArr, List.range_succ, List.map_append]
  simp [List.getLastD_concat]

lemma timestampsArr_getLast?_getD (s : ℤ) (r n : ℕ) (d : ℤ) :
    (timestampsArr s r n).getLast?.getD d = s + (tsOffset r n : ℤ) := by
  rw [timestampsArr, List.range_succ, List.map_append, List.map_singleton,
    List.getLast?_concat]
  rfl

lemma drainLoop_fst (dev : List Block) :
    (drainLoop dev).1 = (pendingBlocks dev).map (fun b => reshapeRows b.buf) := by
  induction dev with
  | nil => rfl
  | cons b rest ih =>
    by_cases h : b.count = 0
    · simp [drainLoop, pendingBlocks, h]
    · simp [drainLoop, pendingBlocks, h]
      simpa [pendingBlocks] using ih

lemma deliveredRows_eq (dev : List Block) :
    (drainLoop dev).1.flatten = deliveredRows dev := by
  rw [deliveredRows, drainLoop_fst]

lemma pendingBlocks_subset (dev : List Block) :
    ∀ b ∈ pendingBlocks dev, b ∈ dev := by
  induction dev with
  | nil => intro b hb; simp [pendingBlocks] at hb
  | cons a rest ih =>
    intro b hb
    rw [pendingBlocks, List.takeWhile_cons] at hb
    split at hb
    · rcases List.mem_cons.1 hb with h1 | h1
      · exact h1 ▸ List.mem_cons_self a rest
      · exact List.mem_cons_of_mem a (ih b (by rw [pendingBlocks]; exact h1))
    · simp at hb

lemma flushLoop_drains_all (dev : List Block) (hdev : ∀ b ∈ dev, b.count ≠ 0) :
    flushLoop dev = ((dev.map Block.count).sum, []) := by
  induction dev with
  | nil => rfl
  | cons b rest ih =>
    have hb : b.count ≠ 0 := hdev b (List.mem_cons_self b rest)
    simp [flushLoop, hb, ih (fun x hx => hdev x (List.mem_cons_of_mem b hx))]

lemma processBatch_empty (st : DriverState) (dev : List Block) (dropped : Option ℕ)
    (h : (drainLoop dev).1 = []) :
    processBatch st dev dropped = ⟨st, (drainLoop dev).2, none, dropped, 0⟩ := by
  simp [processBatch, h]

lemma processBatch_nonempty (st : DriverState) (dev : List Block)
    (dropped : Option ℕ) (h : (drainLoop dev).1 ≠ []) :
    processBatch st dev dropped =
      ⟨{ rate := st.rate
         startTimestamp := st.startTimestamp +
           (tsOffset st.rate (drainLoop dev).1.flatten.length : ℤ)
         referenceTs := st.referenceTs
         sampleCount := st.sampleCount.map
           (fun c => c + (drainLoop dev).1.flatten.length)
         diagnosticsPending := false },
       (drainLoop dev).2,
       some ⟨(drainLoop dev).1.flatten,
             (List.range (drainLoop dev).1.flatten.length).map
               (fun k => st.startTimestamp + (tsOffset st.rate k : ℤ)),
             st.diagnosticsPending⟩,
       dropped,
       if overflowWarning (col0 (drainLoop dev).1.flatten) then 1 else 0⟩ := by
  have hb : (drainLoop dev).1.isEmpty = false := by
    simpa using h
  simp [processBatch, hb, timestampsArr_dropLast, timestampsArr_getLastD,
    timestampsArr_getLast?_getD]

lemma update_ready (wc : ℤ) (st : DriverState) (dev : List Block) (c : ℕ)
    (hsc : st.sampleCount = some c) :
    update wc st dev = processBatch st dev none := by
  simp [update, hsc]

lemma update_ready_some (wc : ℤ) (st : DriverState) (dev : List Block)
    (c : ℕ) (out : BatchOutput)
    (hsc : st.sampleCount = some c)
    (hout : (update wc st dev).output = some out) :
    out.rows = (drainLoop dev).1.flatten ∧
    out.timestamps = (List.range out.rows.length).map
        (fun k => st.startTimestamp + (tsOffset st.rate k : ℤ)) ∧
    out.metaSent = st.diagnosticsPending ∧
    (update wc st dev).state =
      { rate := st.rate
        startTimestamp := st.startTimestamp + (tsOffset st.rate out.rows.length : ℤ)
        referenceTs := st.referenceTs
        sampleCount := some (c + out.rows.length)
        diagnosticsPending := false } ∧
    (update wc st dev).warnCount =
      (if overflowWarning (col0 out.rows) then 1 else 0) ∧
    (update wc st dev).droppedOnFirstCall = none ∧
    (drainLoop dev).1 ≠ [] := by
  rw [update_ready wc st dev c hsc] at hout ⊢
  by_cases h : (drainLoop dev).1 = []
  · rw [processBatch_empty st dev none h] at hout
    exact absurd hout (by simp)
  · rw [processBatch_nonempty st dev none h] at hout ⊢
    have heq := Option.some.inj hout
    subst heq
    refine ⟨rfl, rfl, rfl, ?_, rfl, rfl, h⟩
    simp [hsc]

lemma overflowWarning_eq_true (cs : List ℤ) :
    overflowWarning cs = true ↔
      ∃ p ∈ cs.zip cs.tail, p.2 - p.1 ≠ 1 ∧ p.1 ≠ wrapPoint := by
  constructor
  · intro h
    rw [overflowWarning, Bool.and_eq_true] at h
    rcases h with ⟨-, h2⟩
    rcases List.any_eq_true.1 h2 with ⟨v, hv, hvw⟩
    rcases List.mem_map.1 hv with ⟨p, hpf, rfl⟩
    rcases List.mem_filter.1 hpf with ⟨hp, hpd⟩
    exact ⟨p, hp, by simpa using hpd, by simpa using hvw⟩
  · rintro ⟨p, hp, hd, hw⟩
    have hmem : p.1 ∈ gapPrevValues cs :=
      List.mem_map.2 ⟨p, List.mem_filter.2 ⟨hp, by simpa using hd⟩, rfl⟩
    rw [overflowWarning, Bool.and_eq_true]
    constructor
    · have := List.length_pos.2 (List.ne_nil_of_mem hmem)
      simpa using this
    · exact List.any_eq_true.2 ⟨p.1, hmem, by simpa using hw⟩

lemma overflowWarning_eq_false (cs : List ℤ) :
    overflowWarning cs = false ↔
      ∀ p ∈ cs.zip cs.tail, p.2 - p.1 ≠ 1 → p.1 = wrapPoint := by
  rw [← Bool.not_eq_true, overflowWarning_eq_true]
  push_neg
  constructor
  · intro h p hp hd
    exact h p hp hd
  · intro h p hp hd
    exact h p hp hd

lemma sum_map_length_const {α : Type} (L : List (List α))
    (h : ∀ l ∈ L, l.length = 16) :
    (L.map List.length).sum = 16 * L.length := by
  induction L with
  | nil => rfl
  | cons a L ih =>
    simp only [List.map_cons, List.sum_cons, List.length_cons]
    rw [h a (List.mem_cons_self a L),
      ih (fun l hl => h l (List.mem_cons_of_mem a hl))]
    ring

lemma reshapeRows_length_of_mul (m : ℕ) :
    ∀ l : List ℤ, l.length = 8 * m → (reshapeRows l).length = m := by
  induction m with
  | zero =>
    intro l hl
    rw [List.length_eq_zero] at hl
    subst hl
    rfl
  | succ m ih =>
    intro l hl
    obtain ⟨c0, l, rfl⟩ :=
      List.exists_of_length_succ l (show l.length = (8 * m + 7) + 1 by omega)
    simp only [List.length_cons] at hl
    obtain ⟨c1, l, rfl⟩ :=
      List.exists_of_length_succ l (show l.length = (8 * m + 6) + 1 by omega)
    simp only [List.length_cons] at hl
    obtain ⟨c2, l, rfl⟩ :=
      List.exists_of_length_succ l (show l.length = (8 * m + 5) + 1 by omega)
    simp only [List.length_cons] at hl
    obtain ⟨c3, l, rfl⟩ :=
      List.exists_of_length_succ l (show l.length = (8 * m + 4) + 1 by omega)
    simp only [List.length_cons] at hl
    obtain ⟨c4, l, rfl⟩ :=
      List.exists_of_length_succ l (show l.length = (8 * m + 3) + 1 by omega)
    simp only [List.length_cons] at hl
    obtain ⟨c5, l, rfl⟩ :=
      List.exists_of_length_succ l (show l.length = (8 * m + 2) + 1 by omega)
    simp only [List.length_cons] at hl
    obtain ⟨c6, l, rfl⟩ :=
      List.exists_of_length_succ l (show l.length = (8 * m + 1) + 1 by omega)
    simp only [List.length_cons] at hl
    obtain ⟨c7, l, rfl⟩ :=
      List.exists_of_length_succ l (show l.length = (8 * m) + 1 by omega)
    simp only [List.length_cons] at hl
    rw [show reshapeRows (c0 :: c1 :: c2 :: c3 :: c4 :: c5 :: c6 :: c7 :: l) =
        [c0, c1, c2, c3, c4, c5, c6, c7] :: reshapeRows l from rfl]
    simp only [List.length_cons]
    rw [ih l (by omega)]

/-! ## Claim theorems -/

/-- Claim C1: for every batch of `n` rows delivered by `update`, the timestamp
assigned to row `k` (for all `k < n`) equals the startTimestamp anchor held at
the start of that batch plus `k * (1/rate)` expressed at microsecond
resolution: the emitted timestamp is the anchor plus `tsOffset st.rate k`
microseconds, where that offset is the microsecond truncation of `k/rate`
seconds, within one microsecond of the exact value. -/
theorem updateRowTimestampLinear (wc : ℤ) (st : DriverState) (dev : List Block)
    (c k : ℕ) (out : BatchOutput)
    (hrate : 0 < st.rate) (hsc : st.sampleCount = some c)
    (hout : (update wc st dev).output = some out)
    (hk : k < out.rows.length) :
    out.timestamps[k]? = some (st.startTimestamp + (tsOffset st.rate k : ℤ)) ∧
    st.rate * tsOffset st.rate k ≤ k * 1000000 ∧
    k * 1000000 < st.rate * tsOffset st.rate k + st.rate := by
  obtain ⟨-, hts, -, -, -, -, -⟩ := update_ready_some wc st dev c out hsc hout
  refine ⟨?_, tsOffset_le st.rate k, lt_tsOffset_add st.rate k hrate⟩
  rw [hts, List.getElem?_map, List.getElem?_range hk]
  rfl

/-- Claim C2: consecutive non-empty batches tile the timeline.  After a batch
of `n1` rows the startTimestamp anchor is advanced to
`startTimestamp + n1 * (1/rate)` at microsecond resolution; the first
timestamp of the next non-empty batch equals that advanced anchor; and the
boundary step from the last timestamp of the first batch to the first
timestamp of the second differs from the exact period `1/rate` by strictly
less than one microsecond (so in particular it is exactly `1/rate` whenever
the rate divides 10^6). -/
theorem updateBatchesTile (wc1 wc2 : ℤ) (st : DriverState)
    (dev1 dev2 : List Block) (c : ℕ) (out1 out2 : BatchOutput) (t1 t2 : ℤ)
    (hrate : 0 < st.rate) (hsc : st.sampleCount = some c)
    (h1 : (update wc1 st dev1).output = some out1)
    (h2 : (update wc2 (update wc1 st dev1).state dev2).output = some out2)
    (hlast : out1.timestamps.getLast? = some t1)
    (hfirst : out2.timestamps.head? = some t2) :
    (update wc1 st dev1).state.startTimestamp =
      st.startTimestamp + (tsOffset st.rate out1.rows.length : ℤ) ∧
    t2 = (update wc1 st dev1).state.startTimestamp ∧
    ((t2 - t1) * (st.rate : ℤ) - 1000000).natAbs < st.rate := by
  obtain ⟨-, hts1, -, hstate1, -, -, -⟩ :=
    update_ready_some wc1 st dev1 c out1 hsc h1
  have hsc1 : (update wc1 st dev1).state.sampleCount =
      some (c + out1.rows.length) := by
    rw [hstate1]
  obtain ⟨-, hts2, -, -, -, -, -⟩ :=
    update_ready_some wc2 _ dev2 _ out2 hsc1 h2
  have hne1 : out1.rows.length ≠ 0 := by
    intro h0
    rw [hts1, h0] at hlast
    simp at hlast
  obtain ⟨m, hm⟩ := Nat.exists_eq_succ_of_ne_zero hne1
  rw [hts1, hm] at hlast
  simp only [List.range_succ, List.map_append, List.map_singleton,
    List.getLast?_concat, Option.some.injEq] at hlast
  have hne2 : out2.rows.length ≠ 0 := by
    intro h0
    rw [hts2, h0] at hfirst
    simp at hfirst
  obtain ⟨m2, hm2⟩ := Nat.exists_eq_succ_of_ne_zero hne2
  rw [hts2, hm2] at hfirst
  simp only [List.range_succ_eq_map, List.map_cons, List.head?_cons,
    Option.some.injEq] at hfirst
  simp only [hstate1] at hfirst
  have ht2 : t2 = st.startTimestamp +
      (tsOffset st.rate out1.rows.length : ℤ) := by
    rw [← hfirst, tsOffset_zero]
    simp
  refine ⟨?_, ?_, ?_⟩
  · rw [hstate1]
  · rw [ht2, hstate1]
  · rw [ht2, ← hlast, hm, Nat.succ_eq_add_one]
    have harith :
        (st.startTimestamp + (tsOffset st.rate (m + 1) : ℤ))
          - (st.startTimestamp + (tsOffset st.rate m : ℤ))
        = (tsOffset st.rate (m + 1) : ℤ) - (tsOffset st.rate m : ℤ) := by
      ring
    rw [harith]
    exact tsOffset_succ_gap st.rate m hrate

/-- Claim C3: a batch whose counter column steps by exactly 1 between
consecutive rows, except at positions where the earlier row's counter equals
`2^24 - 1` (the wrap point, as in `[..., 16777214, 16777215, 0, 1, ...]`),
produces no discontinuity warning. -/
theorem counterWrapNoWarning (wc : ℤ) (st : DriverState) (dev : List Block)
    (c : ℕ) (out : BatchOutput)
    (hsc : st.sampleCount = some c)
    (hout : (update wc st dev).output = some out)
    (hstep : ∀ p ∈ (col0 out.rows).zip (col0 out.rows).tail,
      p.2 = p.1 + 1 ∨ p.1 = wrapPoint) :
    (update wc st dev).warnCount = 0 := by
  obtain ⟨-, -, -, -, hwarn, -, -⟩ := update_ready_some wc st dev c out hsc hout
  rw [hwarn, (overflowWarning_eq_false (col0 out.rows)).2 ?_]
  · rfl
  · intro p hp hd
    rcases hstep p hp with h | h
    · exact absurd (by rw [h]; ring) hd
    · exact h

/-- Claim C4: a batch containing at least one real counter gap (a
consecutive-row difference not equal to 1 whose earlier counter is not
`2^24 - 1`) makes `update` log exactly one discontinuity warning for that
call, no matter how many gaps the batch contains, and the rows themselves
pass through to the output sink unchanged (the batch delivered is exactly the
drained blocks).  In the embedding `update` is a total function: the warning
path raises nothing and never halts acquisition. -/
theorem realGapWarnsExactlyOnce (wc : ℤ) (st : DriverState) (dev : List Block)
    (c : ℕ) (out : BatchOutput)
    (hsc : st.sampleCount = some c)
    (hout : (update wc st dev).output = some out)
    (hgap : ∃ p ∈ (col0 out.rows).zip (col0 out.rows).tail,
      p.2 - p.1 ≠ 1 ∧ p.1 ≠ wrapPoint) :
    (update wc st dev).warnCount = 1 ∧ out.rows = deliveredRows dev := by
  obtain ⟨hrows, -, -, -, hwarn, -, -⟩ :=
    update_ready_some wc st dev c out hsc hout
  constructor
  · rw [hwarn, (overflowWarning_eq_true (col0 out.rows)).2 hgap]
    rfl
  · rw [hrows, deliveredRows_eq]

/-- Claim C5: the first `update` call of a session drains and discards every
sample pending on the device, delivers nothing to the output sink, and
establishes the startTimestamp and referenceTimestamp anchors at the observed
wall clock with the sample count set to 0. -/
theorem firstUpdateFlushesAndAnchors (wc : ℤ) (st : DriverState)
    (dev : List Block)
    (hfirst : st.sampleCount = none)
    (hdev : ∀ b ∈ dev, b.count ≠ 0) :
    (update wc st dev).output = none ∧
    (update wc st dev).droppedOnFirstCall = some ((dev.map Block.count).sum) ∧
    (update wc st dev).state.startTimestamp = wc ∧
    (update wc st dev).state.referenceTs = wc ∧
    (update wc st dev).state.sampleCount = some 0 ∧
    (update wc st dev).device = [] := by
  have hf := flushLoop_drains_all dev hdev
  simp [update, hfirst, hf, processBatch, drainLoop]

/-- Claim C6: outside the first-call flush, the drain loop reads the device
until it reports 0 and the rows delivered to the sink are exactly the
non-empty blocks read, concatenated in arrival order and reshaped into rows
of 8 columns (`deliveredRows`); with zero pending samples nothing is written
to the sink. -/
theorem drainDeliversPendingBlocks (wc : ℤ) (st : DriverState)
    (dev : List Block) (c : ℕ)
    (hsc : st.sampleCount = some c) :
    (match (update wc st dev).output with
      | none => []
      | some o => o.rows) = deliveredRows dev ∧
    ((update wc st dev).output = none ↔ pendingBlocks dev = []) := by
  rw [update_ready wc st dev c hsc]
  by_cases h : (drainLoop dev).1 = []
  · have hp : pendingBlocks dev = [] := by
      have hd := drainLoop_fst dev
      rw [h] at hd
      exact List.map_eq_nil_iff.1 hd.symm
    rw [processBatch_empty st dev none h]
    simp [deliveredRows, hp]
  · have hp : pendingBlocks dev ≠ [] := by
      intro hp
      apply h
      rw [drainLoop_fst, hp]
      rfl
    rw [processBatch_nonempty st dev none h]
    constructor
    · show (drainLoop dev).1.flatten = deliveredRows dev
      exact deliveredRows_eq dev
    · simp [hp]

/-- Claim C7: a rate outside `SAMPLING_RATES` (such as 777) makes
construction fail with the configuration `ValueError` before any device call
is attempted, while a supported rate strictly above 1000 Hz makes
construction emit a non-fatal `UserWarning` and proceed to device
initialization. -/
theorem initValidatesRate (rate : ℕ) :
    (rate ∉ SAMPLING_RATES → forceDriverInit rate = ⟨true, false, false⟩) ∧
    (rate ∈ SAMPLING_RATES → 1000 < rate →
      forceDriverInit rate = ⟨false, true, true⟩) := by
  constructor
  · intro h
    simp [forceDriverInit, h]
  · intro h1 h2
    simp [forceDriverInit, h1, h2]

/-- Claim C8: an `update` call after the first in which the drain loop reads
zero rows (the first device read reports no samples) writes nothing to the
output sink and leaves the acquisition state — startTimestamp,
referenceTimestamp, sampleCount and the pending diagnostics metadata —
completely unchanged. -/
theorem idleUpdateLeavesStateUnchanged (wc : ℤ) (st : DriverState)
    (dev : List Block) (c : ℕ)
    (hsc : st.sampleCount = some c)
    (hempty : pendingBlocks dev = []) :
    (update wc st dev).state = st ∧
    (update wc st dev).output = none ∧
    (update wc st dev).warnCount = 0 ∧
    (update wc st dev).droppedOnFirstCall = none := by
  have h : (drainLoop dev).1 = [] := by
    rw [drainLoop_fst, hempty]
    rfl
  rw [update_ready wc st dev c hsc, processBatch_empty st dev none h]
  exact ⟨rfl, rfl, rfl, rfl⟩

/-- Claim C9: the wrap suppression is keyed only on the pre-gap counter
value.  In a batch where every consecutive-row difference other than 1 starts
from a row whose counter equals `2^24 - 1`, no discontinuity warning is
emitted — even when such a jump lands on a value other than 0 (for example
16777215 followed by 7 is silently accepted, as the witness instantiates). -/
theorem wrapSuppressionIgnoresSuccessor (wc : ℤ) (st : DriverState)
    (dev : List Block) (c : ℕ) (out : BatchOutput)
    (hsc : st.sampleCount = some c)
    (hout : (update wc st dev).output = some out)
    (hgaps : ∀ p ∈ (col0 out.rows).zip (col0 out.rows).tail,
      p.2 - p.1 ≠ 1 → p.1 = wrapPoint)
    (_hjump : ∃ p ∈ (col0 out.rows).zip (col0 out.rows).tail,
      p.1 = wrapPoint ∧ p.2 ≠ 0) :
    (update wc st dev).warnCount = 0 := by
  obtain ⟨-, -, -, -, hwarn, -, -⟩ := update_ready_some wc st dev c out hsc hout
  rw [hwarn, (overflowWarning_eq_false (col0 out.rows)).2 hgaps]
  rfl

/-- Claim C10: when every device read deposits the full 128-float staging
buffer, every non-empty batch delivered by `update` has a row count that is a
positive multiple of 16: each read reporting a non-zero count contributes the
entire reshaped 8x16 buffer regardless of the count it reported. -/
theorem batchLengthPositiveMultipleOf16 (wc : ℤ) (st : DriverState)
    (dev : List Block) (c : ℕ) (out : BatchOutput)
    (hsc : st.sampleCount = some c)
    (hbuf : ∀ b ∈ dev, b.buf.length = 128)
    (hout : (update wc st dev).output = some out) :
    ∃ m, 0 < m ∧ out.rows.length = 16 * m := by
  obtain ⟨hrows, -, -, -, -, -, hne⟩ :=
    update_ready_some wc st dev c out hsc hout
  refine ⟨(pendingBlocks dev).length, ?_, ?_⟩
  · have hp : pendingBlocks dev ≠ [] := by
      intro hp
      apply hne
      rw [drainLoop_fst, hp]
      rfl
    exact List.length_pos.2 hp
  · have hlen : ∀ l ∈ (pendingBlocks dev).map (fun b => reshapeRows b.buf),
        l.length = 16 := by
      intro l hl
      rcases List.mem_map.1 hl with ⟨b, hb, rfl⟩
      exact reshapeRows_length_of_mul 16 b.buf
        (by rw [hbuf b (pendingBlocks_subset dev b hb)])
    rw [hrows, drainLoop_fst, List.length_flatten,
      sum_map_length_const ((pendingBlocks dev).map (fun b => reshapeRows b.buf))
        hlen,
      List.length_map]

/-! ## Witnesses: each theorem above evaluated at a concrete session -/

/-- Witness for C1 at rate 500 Hz, anchor 1000000 us, a two-row batch, row 1. -/
theorem updateRowTimestampLinear_witness :
    0 < exReadyState.rate ∧
    exReadyState.sampleCount = some 0 ∧
    (update 0 exReadyState [⟨16, bufA⟩]).output = some exOutA ∧
    1 < exOutA.rows.length ∧
    (exOutA.timestamps[1]? =
        some (exReadyState.startTimestamp + (tsOffset exReadyState.rate 1 : ℤ)) ∧
      exReadyState.rate * tsOffset exReadyState.rate 1 ≤ 1 * 1000000 ∧
      1 * 1000000 < exReadyState.rate * tsOffset exReadyState.rate 1 +
        exReadyState.rate) :=
  ⟨by decide, by decide, by decide, by decide,
    updateRowTimestampLinear 0 exReadyState [⟨16, bufA⟩] 0 1 exOutA
      (by decide) (by decide) (by decide) (by decide)⟩

/-- Witness for C2: two consecutive two-row batches at 500 Hz. -/
theorem updateBatchesTile_witness :
    0 < exReadyState.rate ∧
    exReadyState.sampleCount = some 0 ∧
    (update 0 exReadyState [⟨16, bufA⟩]).output = some exOutA ∧
    (update 0 (update 0 exReadyState [⟨16, bufA⟩]).state [⟨16, bufB⟩]).output =
      some exOutB ∧
    exOutA.timestamps.getLast? = some 1002000 ∧
    exOutB.timestamps.head? = some 1004000 ∧
    ((update 0 exReadyState [⟨16, bufA⟩]).state.startTimestamp =
        exReadyState.startTimestamp +
          (tsOffset exReadyState.rate exOutA.rows.length : ℤ) ∧
      (1004000 : ℤ) = (update 0 exReadyState [⟨16, bufA⟩]).state.startTimestamp ∧
      (((1004000 : ℤ) - 1002000) * (exReadyState.rate : ℤ)
        - 1000000).natAbs < exReadyState.rate) :=
  ⟨by decide, by decide, by decide, by decide, by decide, by decide,
    updateBatchesTile 0 0 exReadyState [⟨16, bufA⟩] [⟨16, bufB⟩] 0
      exOutA exOutB 1002000 1004000
      (by decide) (by decide) (by decide) (by decide) (by decide) (by decide)⟩

/-- Witness for C3: counters `[16777214, 16777215, 0, 1]` give no warning. -/
theorem counterWrapNoWarning_witness :
    exReadyState.sampleCount = some 0 ∧
    (update 0 exReadyState [⟨16, bufWrap⟩]).output = some exOutWrap ∧
    (∀ p ∈ (col0 exOutWrap.rows).zip (col0 exOutWrap.rows).tail,
      p.2 = p.1 + 1 ∨ p.1 = wrapPoint) ∧
    (update 0 exReadyState [⟨16, bufWrap⟩]).warnCount = 0 :=
  ⟨by decide, by decide, by decide,
    counterWrapNoWarning 0 exReadyState [⟨16, bufWrap⟩] 0 exOutWrap
      (by decide) (by decide) (by decide)⟩

/-- Witness for C4: counters `[5, 6, 9, 10]` give exactly one warning and the
rows pass through unchanged. -/
theorem realGapWarnsExactlyOnce_witness :
    exReadyState.sampleCount = some 0 ∧
    (update 0 exReadyState [⟨16, bufGap⟩]).output = some exOutGap ∧
    (∃ p ∈ (col0 exOutGap.rows).zip (col0 exOutGap.rows).tail,
      p.2 - p.1 ≠ 1 ∧ p.1 ≠ wrapPoint) ∧
    ((update 0 exReadyState [⟨16, bufGap⟩]).warnCount = 1 ∧
      exOutGap.rows = deliveredRows [⟨16, bufGap⟩]) :=
  ⟨by decide, by decide, ⟨(6, 9), by decide⟩,
    realGapWarnsExactlyOnce 0 exReadyState [⟨16, bufGap⟩] 0 exOutGap
      (by decide) (by decide) ⟨(6, 9), by decide⟩⟩

/-- Witness for C5: a first call with 32 pending samples in two blocks
discards them all and anchors the session at the observed wall clock. -/
theorem firstUpdateFlushesAndAnchors_witness :
    exFreshState.sampleCount = none ∧
    (∀ b ∈ [(⟨16, bufA⟩ : Block), ⟨16, bufB⟩], b.count ≠ 0) ∧
    ((update 123456 exFreshState [⟨16, bufA⟩, ⟨16, bufB⟩]).output = none ∧
      (update 123456 exFreshState [⟨16, bufA⟩, ⟨16, bufB⟩]).droppedOnFirstCall =
        some (([(⟨16, bufA⟩ : Block), ⟨16, bufB⟩].map Block.count).sum) ∧
      (update 123456 exFreshState [⟨16, bufA⟩, ⟨16, bufB⟩]).state.startTimestamp =
        123456 ∧
      (update 123456 exFreshState [⟨16, bufA⟩, ⟨16, bufB⟩]).state.referenceTs =
        123456 ∧
      (update 123456 exFreshState [⟨16, bufA⟩, ⟨16, bufB⟩]).state.sampleCount =
        some 0 ∧
      (update 123456 exFreshState [⟨16, bufA⟩, ⟨16, bufB⟩]).device = []) :=
  ⟨by decide, by decide,
    firstUpdateFlushesAndAnchors 123456 exFreshState [⟨16, bufA⟩, ⟨16, bufB⟩]
      (by decide) (by decide)⟩

/-- Witness for C6: one pending block is delivered whole; the iff relates
the absence of output to the absence of pending blocks. -/
theorem drainDeliversPendingBlocks_witness :
    exReadyState.sampleCount = some 0 ∧
    ((match (update 0 exReadyState [⟨16, bufA⟩]).output with
       | none => []
       | some o => o.rows) = deliveredRows [⟨16, bufA⟩] ∧
      ((update 0 exReadyState [⟨16, bufA⟩]).output = none ↔
        pendingBlocks [⟨16, bufA⟩] = [])) :=
  ⟨by decide,
    drainDeliversPendingBlocks 0 exReadyState [⟨16, bufA⟩] 0 (by decide)⟩

/-- Witness for C7: rate 777 is rejected before device init; rate 2000 is
accepted with the high-rate warning. -/
theorem initValidatesRate_witness :
    forceDriverInit 777 = ⟨true, false, false⟩ ∧
    forceDriverInit 2000 = ⟨false, true, true⟩ :=
  ⟨(initValidatesRate 777).1 (by decide),
    (initValidatesRate 2000).2 (by decide) (by decide)⟩

/-- Witness for C8: with no pending samples, `update` is a no-op on the
acquisition state. -/
theorem idleUpdateLeavesStateUnchanged_witness :
    exReadyState.sampleCount = some 0 ∧
    pendingBlocks [] = [] ∧
    ((update 0 exReadyState []).state = exReadyState ∧
      (update 0 exReadyState []).output = none ∧
      (update 0 exReadyState []).warnCount = 0 ∧
      (update 0 exReadyState []).droppedOnFirstCall = none) :=
  ⟨by decide, by decide,
    idleUpdateLeavesStateUnchanged 0 exReadyState [] 0 (by decide) (by decide)⟩

/-- Witness for C9: counters `[16777215, 7, 8]` — the jump out of the wrap
value lands on 7, not 0, and is still silently accepted. -/
theorem wrapSuppressionIgnoresSuccessor_witness :
    exReadyState.sampleCount = some 0 ∧
    (update 0 exReadyState [⟨16, bufWrapSeven⟩]).output = some exOutWrapSeven ∧
    (∀ p ∈ (col0 exOutWrapSeven.rows).zip (col0 exOutWrapSeven.rows).tail,
      p.2 - p.1 ≠ 1 → p.1 = wrapPoint) ∧
    (∃ p ∈ (col0 exOutWrapSeven.rows).zip (col0 exOutWrapSeven.rows).tail,
      p.1 = wrapPoint ∧ p.2 ≠ 0) ∧
    (update 0 exReadyState [⟨16, bufWrapSeven⟩]).warnCount = 0 :=
  ⟨by decide, by decide, by decide, ⟨(16777215, 7), by decide⟩,
    wrapSuppressionIgnoresSuccessor 0 exReadyState [⟨16, bufWrapSeven⟩] 0
      exOutWrapSeven (by decide) (by decide) (by decide)
      ⟨(16777215, 7), by decide⟩⟩

set_option maxRecDepth 16000 in
/-- Witness for C10: one full 128-float read yields a 16-row batch. -/
theorem batchLengthPositiveMultipleOf16_witness :
    exReadyState.sampleCount = some 0 ∧
    (∀ b ∈ [(⟨16, buf128⟩ : Block)], b.buf.length = 128) ∧
    (update 0 exReadyState [⟨16, buf128⟩]).output = some exOut128 ∧
    (∃ m, 0 < m ∧ exOut128.rows.length = 16 * m) :=
  ⟨by decide, by decide, by decide,
    batchLengthPositiveMultipleOf16 0 exReadyState [⟨16, buf128⟩] 0 exOut128
      (by decide) (by decide) (by decide)⟩

end TimefluxAmti
